import Mathlib

/-!
Shallow embedding of the college-backend repository (roles/permissions,
popup singleton hook, content versioning, blog publish stamping, admin
user routes, soft deletes, and handler error translation), with theorems
settling the specification claims.

Mongoose conventions reflected in the embedding:
- document pre('save') middleware runs on `save()` but not on
  `findByIdAndUpdate`, which is modelled as a direct store update;
- a path is "modified" when it was assigned a value different from the
  stored one (mongoose `$set` uses deepEqual) or passed to the
  constructor of a new document; a schema default applied to a new
  document is recorded in the `default` state, not the `modify` state,
  so `isModified(path)` is false for it.
-/

/-- Permission universe, the fixed enum of the `permissions` field in
`userSchema` (src/models/Blog.js, user schema part). -/
inductive Permission where
  | create_course
  | edit_course
  | delete_course
  | create_college
  | edit_college
  | delete_college
  | manage_users
  | view_analytics
deriving DecidableEq, Repr

/-- Account roles, the enum of `userSchema.role`. -/
inductive Role where
  | admin
  | moderator
  | user
deriving DecidableEq, Repr

/-- Account record (the fields of `userSchema` used by the claims). -/
structure User where
  id : Nat
  name : String
  email : String
  password : String
  role : Role
  phone : Option String
  isActive : Bool
  permissions : List Permission
deriving DecidableEq, Repr

/-- Embeds `userSchema.methods.hasPermission`: true for admins, otherwise a
membership test against the stored `permissions` array. -/
def hasPermission (u : User) (p : Permission) : Bool :=
  if u.role = Role.admin then true
  else decide (p ∈ u.permissions)

/-- Role to default permission list, the `rolePermissions` table inside
`userSchema.methods.getPermissions`. -/
def rolePermissions : Role → List Permission
  | Role.admin =>
      [Permission.create_course, Permission.edit_course, Permission.delete_course,
       Permission.create_college, Permission.edit_college, Permission.delete_college,
       Permission.manage_users, Permission.view_analytics]
  | Role.moderator =>
      [Permission.create_course, Permission.edit_course,
       Permission.create_college, Permission.edit_college,
       Permission.view_analytics]
  | Role.user => []

/-- One step of building a JavaScript `Set` from a list: keep the element
if it is not already present. -/
def setAdd (acc : List Permission) (p : Permission) : List Permission :=
  if p ∈ acc then acc else acc ++ [p]

/-- JavaScript `[...new Set(l)]`: first-occurrence deduplication. -/
def jsSet (l : List Permission) : List Permission :=
  l.foldl setAdd []

/-- Embeds `userSchema.methods.getPermissions`:
`[...new Set([...basePermissions, ...this.permissions])]`. -/
def getPermissions (u : User) : List Permission :=
  jsSet (rolePermissions u.role ++ u.permissions)

/-- The full permission universe as a list, in schema order. -/
def permissionUniverse : List Permission :=
  [Permission.create_course, Permission.edit_course, Permission.delete_course,
   Permission.create_college, Permission.edit_college, Permission.delete_college,
   Permission.manage_users, Permission.view_analytics]

/-- Popup record, the fields of `popupSchema` (src/models/Course.js, popup
part). Identity is a synthetic numeric id standing for the Mongo `_id`. -/
structure Popup where
  id : Nat
  title : String
  content : String
  buttonText : String
  buttonLink : Option String
  isActive : Bool
  displayDelay : Nat
  backgroundColor : String
  textColor : String
  buttonColor : String
  createdBy : Option Nat
  updatedBy : Option Nat
deriving DecidableEq, Repr

/-- The `updateMany({_id: {$ne: this._id}}, {isActive: false})` call of the
popup pre-save hook: deactivate every other popup. -/
def deactivateOthers (selfId : Nat) (store : List Popup) : List Popup :=
  store.map (fun p => if p.id = selfId then p else { p with isActive := false })

/-- Embeds `popupSchema.pre('save')`: when the document is active and the
`isActive` path is in the modified state, deactivate all other popups. -/
def popupPreSave (doc : Popup) (modifiedIsActive : Bool) (store : List Popup) :
    List Popup :=
  if doc.isActive && modifiedIsActive then deactivateOthers doc.id store
  else store

/-- Saving a brand-new popup document: run the pre-save hook, then insert. -/
def popupSaveNew (doc : Popup) (modifiedIsActive : Bool) (store : List Popup) :
    List Popup :=
  popupPreSave doc modifiedIsActive store ++ [doc]

/-- Saving an already-stored popup document: run the pre-save hook, then
write the document back over the record with its id. -/
def popupSaveExisting (doc : Popup) (modifiedIsActive : Bool)
    (store : List Popup) : List Popup :=
  (popupPreSave doc modifiedIsActive store).map
    (fun p => if p.id = doc.id then doc else p)

/-- Request body of `POST /popup` as read by the handler: it destructures
exactly these fields and never reads `isActive`. -/
structure PopupCreateBody where
  title : Option String := none
  content : Option String := none
  buttonText : Option String := none
  buttonLink : Option String := none
  displayDelay : Option Nat := none
  backgroundColor : Option String := none
  textColor : Option String := none
  buttonColor : Option String := none
deriving DecidableEq, Repr

/-- JavaScript truthiness of the `if (!title || !content)` guard: a string
field is present when it is defined and non-empty. -/
def isPresent : Option String → Bool
  | some s => !(s = "")
  | none => false

/-- The popup document built by the `POST /popup` handler: body fields are
passed to the constructor (hence in the modified state) and every other
field takes its schema default; in particular `isActive` defaults to
`true` without entering the modified state. -/
def mkPopup (newId : Nat) (b : PopupCreateBody) : Popup :=
  { id := newId
    title := b.title.getD ""
    content := b.content.getD ""
    buttonText := b.buttonText.getD "Learn More"
    buttonLink := b.buttonLink
    isActive := true
    displayDelay := b.displayDelay.getD 30000
    backgroundColor := b.backgroundColor.getD "#ffffff"
    textColor := b.textColor.getD "#333333"
    buttonColor := b.buttonColor.getD "#007bff"
    createdBy := none
    updatedBy := none }

/-- Embeds `router.post('/')` of src/routes/popup.js: reject a falsy title
or content with 400, otherwise save the new document. The save runs the
pre-save hook with `isModified('isActive') = false`, because `isActive`
was applied as a schema default rather than set by the handler. -/
def createPopupHandler (newId : Nat) (b : PopupCreateBody)
    (store : List Popup) : Nat × List Popup :=
  if isPresent b.title && isPresent b.content then
    (201, popupSaveNew (mkPopup newId b) false store)
  else (400, store)

/-- Request body of `PUT /popup/:id`, spread straight into the update. -/
structure PopupUpdateBody where
  title : Option String := none
  content : Option String := none
  buttonText : Option String := none
  buttonLink : Option String := none
  isActive : Option Bool := none
  displayDelay : Option Nat := none
  backgroundColor : Option String := none
  textColor : Option String := none
  buttonColor : Option String := none
deriving DecidableEq, Repr

/-- Field application of `findByIdAndUpdate` for popups: each key present
in the update data overwrites the stored value, plus `updatedBy`. -/
def applyPopupUpdate (callerId : Nat) (b : PopupUpdateBody) (p : Popup) :
    Popup :=
  { p with
    title := b.title.getD p.title
    content := b.content.getD p.content
    buttonText := b.buttonText.getD p.buttonText
    buttonLink := match b.buttonLink with
      | some l => some l
      | none => p.buttonLink
    isActive := b.isActive.getD p.isActive
    displayDelay := b.displayDelay.getD p.displayDelay
    backgroundColor := b.backgroundColor.getD p.backgroundColor
    textColor := b.textColor.getD p.textColor
    buttonColor := b.buttonColor.getD p.buttonColor
    updatedBy := some callerId }

/-- Embeds `router.put('/:id')` of src/routes/popup.js: a direct
`findByIdAndUpdate`, which does not run the pre-save hook, so no other
popup is deactivated even when the body sets `isActive` to true. -/
def putPopupHandler (callerId : Nat) (id : Nat) (b : PopupUpdateBody)
    (store : List Popup) : Nat × List Popup :=
  match store.find? (fun p => p.id = id) with
  | none => (404, store)
  | some _ =>
      (200, store.map (fun p => if p.id = id then applyPopupUpdate callerId b p else p))

/-- Embeds `router.patch('/:id/toggle')` of src/routes/popup.js: load the
document, negate `isActive` (which always changes the value, so the path
is modified), stamp `updatedBy`, and `save()` it, running the hook. -/
def togglePopupHandler (callerId : Nat) (id : Nat) (store : List Popup) :
    Nat × List Popup :=
  match store.find? (fun p => p.id = id) with
  | none => (404, store)
  | some p =>
      let p1 := { p with isActive := !p.isActive, updatedBy := some callerId }
      (200, popupSaveExisting p1 true store)

/-- Number of active popups in a store. -/
def countActive (store : List Popup) : Nat :=
  (store.filter (fun p => p.isActive)).length

/-- Sections payload of a content page: `Schema.Types.Mixed`, modelled as a
document of key/value pairs with structural (deepEqual) equality. -/
abbrev Sections := List (String × String)

/-- Content page snapshot, the fields of `contentSchema`
(src/unnamed/part_001). -/
structure ContentDoc where
  page : String
  sections : Sections
  lastUpdatedBy : Nat
  version : Nat
  isActive : Bool
deriving DecidableEq, Repr

/-- Embeds `contentSchema.pre('save')`: increment `version` exactly when
the `sections` path is in the modified state. -/
def contentPreSave (modifiedSections : Bool) (c : ContentDoc) : ContentDoc :=
  if modifiedSections then { c with version := c.version + 1 } else c

/-- Embeds `router.post('/:page')` of the content router
(src/routes/popup.js, content part): missing `sections` is a 400; an
existing record for the page is updated in place (assigning `sections`
marks the path modified only when the new value differs from the stored
one, per mongoose `$set` deepEqual semantics) and saved through the
pre-save hook; otherwise a fresh record is created, whose
constructor-assigned `sections` path counts as modified. -/
def saveContentHandler (userId : Nat) (page : String)
    (sectionsOpt : Option Sections) (isActiveOpt : Option Bool)
    (store : List ContentDoc) : Nat × List ContentDoc :=
  match sectionsOpt with
  | none => (400, store)
  | some sections =>
      match store.find? (fun c => c.page = page) with
      | some c =>
          let modifiedSections : Bool := !(sections = c.sections)
          let c1 := { c with
            sections := sections
            lastUpdatedBy := userId
            isActive := isActiveOpt.getD c.isActive }
          let c2 := contentPreSave modifiedSections c1
          (200, store.map (fun x => if x.page = page then c2 else x))
      | none =>
          let c : ContentDoc :=
            { page := page
              sections := sections
              lastUpdatedBy := userId
              version := 1
              isActive := isActiveOpt.getD true }
          (200, store ++ [contentPreSave true c])

/-- Blog status enum of `blogSchema`. -/
inductive BlogStatus where
  | draft
  | published
  | archived
deriving DecidableEq, Repr

/-- Blog record, the fields of `blogSchema` (src/models/Blog.js). Times
are modelled as naturals. -/
structure Blog where
  id : Nat
  title : String
  slug : String
  excerpt : String
  content : String
  featuredImage : String
  category : String
  tags : List String
  author : Option Nat
  status : BlogStatus
  featured : Bool
  views : Nat
  likes : Nat
  publishedAt : Option Nat
  seoTitle : Option String
  seoDescription : Option String
  readTime : Nat
deriving DecidableEq, Repr

/-- Embeds `blogSchema.pre('save')`: when the `status` path is modified,
the status is `published` and `publishedAt` is unset, stamp
`publishedAt` with the current time. -/
def blogPreSave (now : Nat) (modifiedStatus : Bool) (b : Blog) : Blog :=
  if modifiedStatus && b.status = BlogStatus.published && b.publishedAt = none
  then { b with publishedAt := some now }
  else b

/-- Request body of `PUT /blogs/:id` as far as the handler reads it: only
`blogData.slug` is ever consulted before the handler throws. -/
structure BlogUpdateBody where
  slug : Option String := none
deriving DecidableEq, Repr

/-- Embeds `router.put('/:id')` of the blog router (src/routes/colleges.js,
blog part). After the optional slug-conflict check (400), the handler
evaluates its update object, which references the undeclared identifiers
`title`, `slug`, `excerpt`, ...; that evaluation throws a ReferenceError
before any store call, and the catch block answers 500. The store is
never modified on any path. -/
def updateBlogHandler (id : Nat) (b : BlogUpdateBody) (store : List Blog) :
    Nat × List Blog :=
  match b.slug with
  | some s =>
      if store.any (fun x => x.slug = s && !(x.id = id)) then (400, store)
      else (500, store)
  | none => (500, store)

/-- Request body of `PUT /admin/users/:id` over the validated fields plus
the `password` and `email` keys that the handler strips. -/
structure UserUpdateBody where
  name : Option String := none
  role : Option Role := none
  phone : Option String := none
  isActive : Option Bool := none
  password : Option String := none
  email : Option String := none
deriving DecidableEq, Repr

/-- Field application of `findByIdAndUpdate` for users, after the handler
has deleted `password` and `email` from the update data: only the
remaining present keys overwrite stored values. -/
def applyUserUpdate (b : UserUpdateBody) (u : User) : User :=
  { u with
    name := b.name.getD u.name
    role := b.role.getD u.role
    phone := match b.phone with
      | some p => some p
      | none => u.phone
    isActive := b.isActive.getD u.isActive }

/-- Embeds `router.put('/users/:id')` of the admin router
(src/models/College.js, admin routes part): 404 when the id is unknown,
a 400 domain error when the caller targets itself with `isActive: false`,
otherwise apply the update with `password` and `email` stripped. -/
def updateUserHandler (callerId : Nat) (targetId : Nat) (b : UserUpdateBody)
    (store : List User) : Nat × List User :=
  match store.find? (fun u => u.id = targetId) with
  | none => (404, store)
  | some _ =>
      if targetId = callerId ∧ b.isActive = some false then (400, store)
      else
        (200, store.map (fun u => if u.id = targetId then applyUserUpdate b u else u))

/-- Embeds `router.delete('/users/:id')` of the admin router: 404 when the
id is unknown, a 400 domain error on self-deletion, otherwise a soft
delete that only sets `isActive` to false. -/
def deleteUserHandler (callerId : Nat) (targetId : Nat) (store : List User) :
    Nat × List User :=
  match store.find? (fun u => u.id = targetId) with
  | none => (404, store)
  | some _ =>
      if targetId = callerId then (400, store)
      else
        (200, store.map (fun u =>
          if u.id = targetId then { u with isActive := false } else u))

/-- Course record, the fields of `courseSchema` (src/models/Course.js).
`status` is a string so that the out-of-enum value `"deleted"` written by
the unvalidated `findByIdAndUpdate` of the delete route can be stored. -/
structure Course where
  id : Nat
  title : String
  description : String
  category : String
  level : String
  duration : String
  feesMin : Int
  feesMax : Int
  eligibility : String
  image : String
  featured : Bool
  trending : Bool
  rating : Int
  enrollments : Nat
  syllabus : List (String × String)
  careerOpportunities : List String
  topColleges : List Nat
  status : String
  createdBy : Nat
  updatedBy : Option Nat
  createdAt : Nat
  updatedAt : Nat
deriving DecidableEq, Repr

/-- Embeds `router.delete('/:id')` of the course router
(src/unnamed/part_002): 404 when the id is unknown, otherwise a soft
delete via `findByIdAndUpdate` setting `status: 'deleted'` and stamping
`updatedBy` and `updatedAt`. -/
def deleteCourseHandler (callerId : Nat) (id : Nat) (now : Nat)
    (store : List Course) : Nat × List Course :=
  match store.find? (fun c => c.id = id) with
  | none => (404, store)
  | some _ =>
      (200, store.map (fun c =>
        if c.id = id then
          { c with status := "deleted", updatedBy := some callerId, updatedAt := now }
        else c))

/-- College record, the fields of `collegeSchema` (src/models/College.js,
schema part). -/
structure College where
  id : Nat
  name : String
  description : String
  image : Option String
  address : String
  website : Option String
  status : String
  createdBy : Option Nat
  updatedBy : Option Nat
  createdAt : Nat
  updatedAt : Nat
deriving DecidableEq, Repr

/-- Embeds `router.delete('/:id')` of the college router
(src/routes/colleges.js): 404 when the id is unknown, otherwise a soft
delete setting `status: 'deleted'` and stamping `updatedBy`/`updatedAt`. -/
def deleteCollegeHandler (callerId : Nat) (id : Nat) (now : Nat)
    (store : List College) : Nat × List College :=
  match store.find? (fun c => c.id = id) with
  | none => (404, store)
  | some _ =>
      (200, store.map (fun c =>
        if c.id = id then
          { c with status := "deleted", updatedBy := some callerId, updatedAt := now }
        else c))

/-- Store-layer failure surfaced to a handler's catch block: the error's
`name` and raw `message` text. -/
structure StoreError where
  name : String
  message : String
deriving DecidableEq, Repr

/-- JSON error response of a handler: status code, fixed `message`, and
the optional `error` field some handlers fill with the raw error text. -/
structure ErrResponse where
  status : Nat
  message : String
  error : Option String
deriving DecidableEq, Repr

/-- Catch block of `router.get('/:id')` in the college router
(src/routes/colleges.js): a CastError becomes a 400 with a fixed message,
anything else a 500 with a fixed message; no raw error text is emitted. -/
def collegeGetByIdCatch (e : StoreError) : ErrResponse :=
  if e.name = "CastError" then
    { status := 400, message := "Invalid college ID format", error := none }
  else
    { status := 500, message := "Server error while fetching college", error := none }

/-- Catch block of `router.get('/')` in the blog router
(src/routes/colleges.js, blog part): a 500 whose body carries
`error: error.message`, the raw store error text. -/
def blogsListCatch (e : StoreError) : ErrResponse :=
  { status := 500, message := "Error fetching blogs", error := some e.message }

/-- Catch block of `router.get('/:page')` in the content router
(src/routes/popup.js, content part): a 500 whose body carries
`error: error.message`, the raw store error text. -/
def contentGetCatch (e : StoreError) : ErrResponse :=
  { status := 500, message := "Error fetching content", error := some e.message }

/-- Concrete active popup used by witnesses and counterexamples. -/
def popupA : Popup :=
  { id := 1, title := "Spring offer", content := "Join now",
    buttonText := "Learn More", buttonLink := none, isActive := true,
    displayDelay := 30000, backgroundColor := "#ffffff",
    textColor := "#333333", buttonColor := "#007bff",
    createdBy := none, updatedBy := none }

/-- Concrete inactive popup used by witnesses and counterexamples. -/
def popupB : Popup :=
  { popupA with id := 2, title := "Summer offer", isActive := false }

/-- Concrete admin account with an empty stored permission set. -/
def adminEmptyPerms : User :=
  { id := 1, name := "Root", email := "root@example.com", password := "hash1",
    role := Role.admin, phone := none, isActive := true, permissions := [] }

/-- Concrete moderator account with an empty stored permission set. -/
def moderatorNoPerms : User :=
  { id := 5, name := "Mod", email := "mod@example.com", password := "hash2",
    role := Role.moderator, phone := none, isActive := true, permissions := [] }

/-- Concrete ordinary account, the target of the witness updates. -/
def user2 : User :=
  { id := 2, name := "Member", email := "member@example.com",
    password := "hash3", role := Role.user, phone := none, isActive := true,
    permissions := [] }

/-- Concrete content snapshot for the home page at version 4. -/
def homeContent : ContentDoc :=
  { page := "home", sections := [("hero", "Welcome")], lastUpdatedBy := 1,
    version := 4, isActive := true }

/-- Concrete blog in the state saved by a transition into published:
status just set to published and no publishedAt yet. -/
def publishingBlog : Blog :=
  { id := 1, title := "Hello", slug := "hello", excerpt := "intro",
    content := "body text", featuredImage := "", category := "News",
    tags := [], author := none, status := BlogStatus.published,
    featured := false, views := 0, likes := 0, publishedAt := none,
    seoTitle := none, seoDescription := none, readTime := 5 }

/-- Concrete active course used by the soft-delete witness. -/
def course0 : Course :=
  { id := 1, title := "Algorithms", description := "CS core",
    category := "Engineering", level := "UG", duration := "4 years",
    feesMin := 1000, feesMax := 5000, eligibility := "12th pass",
    image := "img.png", featured := false, trending := false, rating := 4,
    enrollments := 10, syllabus := [], careerOpportunities := [],
    topColleges := [], status := "active", createdBy := 1,
    updatedBy := none, createdAt := 10, updatedAt := 10 }

/-- Concrete active college used by the soft-delete witness. -/
def college0 : College :=
  { id := 1, name := "Tech Institute", description := "A college",
    image := none, address := "Delhi", website := none, status := "active",
    createdBy := some 1, updatedBy := none, createdAt := 10, updatedAt := 10 }

/-- Update body trying to change email and password along with the name. -/
def userBody0 : UserUpdateBody :=
  { name := some "New", email := some "evil@example.com",
    password := some "pwned" }

/-- Concrete malformed-id store failure with its raw driver text. -/
def castError0 : StoreError :=
  { name := "CastError", message := "Cast to ObjectId failed for value xyz" }

/-- Replacing every matching element of a list through a pointwise update
moves find? onto the updated hit, provided the update preserves the
predicate. -/
theorem find?_map_update {α : Type} (q : α → Prop) [DecidablePred q]
    (f : α → α) (hf : ∀ a, q a → q (f a)) :
    ∀ (l : List α) (a : α), l.find? (fun x => q x) = some a →
      (l.map (fun x => if q x then f x else x)).find? (fun x => q x)
        = some (f a) := by
  intro l
  induction l with
  | nil => intro a h; simp at h
  | cons x xs ih =>
    intro a h
    by_cases hq : q x
    · rw [List.find?_cons_of_pos _ (by simpa using hq)] at h
      injection h with h'
      subst h'
      simp only [List.map_cons, if_pos hq]
      rw [List.find?_cons_of_pos _ (by simpa using hf x hq)]
    · rw [List.find?_cons_of_neg _ (by simpa using hq)] at h
      simp only [List.map_cons, if_neg hq]
      rw [List.find?_cons_of_neg _ (by simpa using hq)]
      exact ih a h

/-- A pointwise update that leaves a projection untouched leaves the
projected list untouched. -/
theorem map_update_proj {α β : Type} (q : α → Prop) [DecidablePred q]
    (f : α → α) (proj : α → β) (hproj : ∀ a, proj (f a) = proj a)
    (l : List α) :
    (l.map (fun x => if q x then f x else x)).map proj = l.map proj := by
  induction l with
  | nil => rfl
  | cons x xs ih =>
    simp only [List.map_cons, ih]
    by_cases hq : q x
    · rw [if_pos hq, hproj]
    · rw [if_neg hq]

/-- Elements not matched by the predicate survive a pointwise update. -/
theorem mem_map_update_of_not {α : Type} (q : α → Prop) [DecidablePred q]
    (f : α → α) (l : List α) (a : α) (ha : a ∈ l) (hq : ¬ q a) :
    a ∈ l.map (fun x => if q x then f x else x) := by
  have h : (fun x => if q x then f x else x) a = a := if_neg hq
  exact h ▸ List.mem_map_of_mem _ ha

/-- Membership through the JavaScript Set fold. -/
theorem mem_foldl_setAdd (p : Permission) :
    ∀ (l acc : List Permission), p ∈ l.foldl setAdd acc ↔ p ∈ acc ∨ p ∈ l := by
  intro l
  induction l with
  | nil => intro acc; simp
  | cons x xs ih =>
    intro acc
    rw [List.foldl_cons, ih]
    unfold setAdd
    by_cases hx : x ∈ acc
    · rw [if_pos hx]
      simp only [List.mem_cons]
      constructor
      · rintro (h | h)
        · exact Or.inl h
        · exact Or.inr (Or.inr h)
      · rintro (h | h | h)
        · exact Or.inl h
        · exact Or.inl (h ▸ hx)
        · exact Or.inr h
    · rw [if_neg hx]
      simp only [List.mem_append, List.mem_singleton, List.mem_cons]
      tauto

/-- Membership in the deduplicated permission list is plain membership. -/
theorem mem_jsSet (p : Permission) (l : List Permission) :
    p ∈ jsSet l ↔ p ∈ l := by
  unfold jsSet
  rw [mem_foldl_setAdd]
  simp

/-- C2: hasPermission(account, p) is true when the role is admin and
otherwise exactly when p belongs to the account's stored explicit
permission set, not the role's default set; in particular a moderator
with an empty stored set is denied every permission, including the
moderator role defaults. -/
theorem hasPermission_stored_set_only (u : User) (p : Permission) :
    (hasPermission u p = true ↔ (u.role = Role.admin ∨ p ∈ u.permissions)) ∧
    (u.role = Role.moderator → u.permissions = [] →
      hasPermission u p = false) := by
  constructor
  · unfold hasPermission
    by_cases h : u.role = Role.admin
    · simp [h]
    · simp [h]
  · intro hrole hperm
    unfold hasPermission
    rw [hrole, hperm]
    simp

/-- Witness for C2: a concrete moderator with an empty stored set is
denied create_course, a permission in the moderator role-default set. -/
theorem hasPermission_stored_set_only_witness :
    hasPermission moderatorNoPerms Permission.create_course = false :=
  (hasPermission_stored_set_only moderatorNoPerms Permission.create_course).2
    rfl rfl

/-- C5: for an admin account, getPermissions returns exactly the full
fixed permission universe, whatever the stored permission set holds. -/
theorem getPermissions_admin_is_universe (u : User) (h : u.role = Role.admin)
    (p : Permission) : p ∈ getPermissions u ↔ p ∈ permissionUniverse := by
  have hl : p ∈ getPermissions u := by
    unfold getPermissions
    rw [mem_jsSet, List.mem_append, h]
    exact Or.inl (by cases p <;> simp [rolePermissions])
  have hr : p ∈ permissionUniverse := by
    cases p <;> simp [permissionUniverse]
  exact iff_of_true hl hr

/-- Witness for C5: a concrete admin whose stored set is empty still gets
delete_college. -/
theorem getPermissions_admin_is_universe_witness :
    Permission.delete_college ∈ getPermissions adminEmptyPerms :=
  (getPermissions_admin_is_universe adminEmptyPerms rfl
    Permission.delete_college).mpr (by decide)

/-- C1: failing input for the single-active-popup invariant. With popupA
active and popupB inactive, activating popupB through PUT /popup/2 leaves
two active popups, because findByIdAndUpdate bypasses the pre-save hook;
creating a popup through POST /popup while popupA is active also leaves
two active popups, because the defaulted isActive path is not modified
and the hook's isModified guard is false. Only the PATCH toggle route
re-establishes a single active popup. -/
theorem popup_activation_not_singleton :
    countActive (putPopupHandler 9 2 { isActive := some true }
        [popupA, popupB]).2 = 2 ∧
    countActive (createPopupHandler 3 { title := some "T", content := some "C" }
        [popupA]).2 = 2 ∧
    countActive (togglePopupHandler 9 2 [popupA, popupB]).2 = 1 := by
  refine ⟨?_, ?_, ?_⟩ <;> rfl

/-- C9 counterexample: creating a popup through POST /popup while popupA
is active leaves popupA stored unchanged and still active, so creation
does not deactivate previously existing popups. -/
theorem createPopup_leaves_others_active :
    ((createPopupHandler 3 { title := some "T", content := some "C" }
        [popupA]).2.find? (fun p => p.id = 1) = some popupA) ∧
    popupA.isActive = true := ⟨rfl, rfl⟩

/-- C9 amended: POST /popup with a present title and content persists the
new popup with isActive = true (the schema default; the handler never
reads isActive from the body) and appends it after the existing records,
which are all left unchanged: the deactivation hook does not fire because
the defaulted isActive path is not in the modified state. -/
theorem createPopup_appends_active_leaves_rest (newId : Nat)
    (b : PopupCreateBody) (store : List Popup)
    (ht : isPresent b.title = true) (hc : isPresent b.content = true) :
    createPopupHandler newId b store = (201, store ++ [mkPopup newId b]) ∧
    (mkPopup newId b).isActive = true := by
  refine ⟨?_, rfl⟩
  unfold createPopupHandler
  rw [ht, hc]
  simp [popupSaveNew, popupPreSave]

/-- Witness for C9's amended claim at a concrete store holding one active
popup. -/
theorem createPopup_appends_active_leaves_rest_witness :
    createPopupHandler 3 { title := some "T", content := some "C" } [popupA]
      = (201, [popupA, mkPopup 3 { title := some "T", content := some "C" }]) :=
  (createPopup_appends_active_leaves_rest 3
    { title := some "T", content := some "C" } [popupA] rfl rfl).1

/-- C8 counterexample: the content GET handler's catch block copies the
raw store error text into the error field of its 500 response at this
concrete cast failure, so raw store error text does reach the caller. -/
theorem content_catch_leaks_raw_error :
    (contentGetCatch castError0).error
      = some "Cast to ObjectId failed for value xyz" := rfl

/-- C8 amended: the college get-by-id handler translates every store
failure into a fixed taxonomy response carrying no raw text (CastError
into a 400 with a fixed invalid-ID message, anything else into a fixed
500), while the blog list and content get handlers return fixed 500
messages but additionally attach the raw store error message in the
error field of the response body. -/
theorem store_error_translation_split (e : StoreError) :
    (collegeGetByIdCatch e).error = none ∧
    ((collegeGetByIdCatch e).status = 400 ∧
        (collegeGetByIdCatch e).message = "Invalid college ID format" ∨
      (collegeGetByIdCatch e).status = 500 ∧
        (collegeGetByIdCatch e).message = "Server error while fetching college") ∧
    (blogsListCatch e).error = some e.message ∧
    (contentGetCatch e).error = some e.message := by
  unfold collegeGetByIdCatch blogsListCatch contentGetCatch
  by_cases h : e.name = "CastError" <;> simp [h]

/-- Replacing every matching element of a list with one fixed record
moves find? onto that record, provided it matches the predicate. -/
theorem find?_map_const {α : Type} (q : α → Prop) [DecidablePred q]
    (c2 : α) (h2 : q c2) :
    ∀ (l : List α) (a : α), l.find? (fun x => q x) = some a →
      (l.map (fun x => if q x then c2 else x)).find? (fun x => q x)
        = some c2 := by
  intro l
  induction l with
  | nil => intro a h; simp at h
  | cons x xs ih =>
    intro a h
    by_cases hq : q x
    · simp only [List.map_cons, if_pos hq]
      rw [List.find?_cons_of_pos _ (by simpa using h2)]
    · rw [List.find?_cons_of_neg _ (by simpa using hq)] at h
      simp only [List.map_cons, if_neg hq]
      rw [List.find?_cons_of_neg _ (by simpa using hq)]
      exact ih a h

/-- C3: posting sections for a page that already has a stored snapshot
updates the record in place; its version grows by exactly one when the
posted sections differ from the stored payload and stays unchanged when
they are identical, so a metadata-only save (same sections, isActive
flipped) never bumps the version. -/
theorem content_version_bump_iff_changed (userId : Nat) (page : String)
    (sections : Sections) (isActiveOpt : Option Bool)
    (store : List ContentDoc) (c : ContentDoc)
    (h : store.find? (fun x => x.page = page) = some c) :
    (saveContentHandler userId page (some sections) isActiveOpt store).2.find?
        (fun x => x.page = page)
      = some { c with
          sections := sections
          lastUpdatedBy := userId
          isActive := isActiveOpt.getD c.isActive
          version := if sections = c.sections then c.version
                     else c.version + 1 } := by
  have hcpage : c.page = page := by simpa using List.find?_some h
  simp only [saveContentHandler, h]
  refine Eq.trans
    (find?_map_const (fun x : ContentDoc => x.page = page) _ ?_ store c h) ?_
  · unfold contentPreSave
    split <;> exact hcpage
  · by_cases hs : sections = c.sections
    · simp [contentPreSave, hs]
    · simp [contentPreSave, hs]

/-- Witness for C3: a metadata-only save over the stored home snapshot
(identical sections, isActive flipped to false) leaves version at 4. -/
theorem content_version_bump_iff_changed_witness :
    (saveContentHandler 7 "home" (some [("hero", "Welcome")]) (some false)
        [homeContent]).2.find? (fun x => x.page = "home")
      = some { page := "home", sections := [("hero", "Welcome")],
               lastUpdatedBy := 7, version := 4, isActive := false } :=
  (content_version_bump_iff_changed 7 "home" [("hero", "Welcome")]
    (some false) [homeContent] homeContent rfl).trans rfl

/-- C4: publishedAt is stamped with the current time exactly at a save
that has just modified status to published while publishedAt is unset; a
save of a blog whose publishedAt is already set leaves it unchanged, a
save that did not modify status into published never sets it, and the
blog update endpoint never changes the store at all (its update object
reads undeclared identifiers and throws before any store write). -/
theorem blog_publishedAt_stamped_once (now : Nat) (b : Blog)
    (h1 : b.status = BlogStatus.published) (h2 : b.publishedAt = none) :
    (blogPreSave now true b).publishedAt = some now ∧
    (∀ (b' : Blog) (t : Nat) (m : Bool), b'.publishedAt = some t →
      (blogPreSave now m b').publishedAt = some t) ∧
    (∀ (b' : Blog) (m : Bool), b'.publishedAt = none →
      (m = false ∨ b'.status ≠ BlogStatus.published) →
      (blogPreSave now m b').publishedAt = none) ∧
    (∀ (id : Nat) (body : BlogUpdateBody) (store : List Blog),
      (updateBlogHandler id body store).2 = store) := by
  refine ⟨?_, ?_, ?_, ?_⟩
  · simp [blogPreSave, h1, h2]
  · intro b' t m hp
    simp [blogPreSave, hp]
  · intro b' m hp hcond
    rcases hcond with hm | hs
    · simp [blogPreSave, hm, hp]
    · simp [blogPreSave, hs, hp]
  · intro id body store
    cases hb : body.slug with
    | none => simp [updateBlogHandler, hb]
    | some s =>
        simp only [updateBlogHandler, hb]
        split <;> rfl

/-- Witness for C4 at a concrete blog whose status was just set to
published with no prior publishedAt: the save stamps time 100. -/
theorem blog_publishedAt_stamped_once_witness :
    (blogPreSave 100 true publishingBlog).publishedAt = some 100 :=
  (blog_publishedAt_stamped_once 100 publishingBlog rfl rfl).1

/-- C6: a caller targeting its own account always gets the 400 domain
error and an unchanged store, both for DELETE /users/:id and for an
update carrying isActive = false, whatever the caller's role. -/
theorem self_modification_blocked (callerId : Nat) (store : List User)
    (u : User) (b : UserUpdateBody)
    (hmem : store.find? (fun x => x.id = callerId) = some u)
    (hb : b.isActive = some false) :
    deleteUserHandler callerId callerId store = (400, store) ∧
    updateUserHandler callerId callerId b store = (400, store) := by
  constructor
  · simp [deleteUserHandler, hmem]
  · simp [updateUserHandler, hmem, hb]

/-- Witness for C6: the concrete admin account 1 cannot delete or
deactivate itself; both requests answer 400 and leave the store as it
was. -/
theorem self_modification_blocked_witness :
    deleteUserHandler 1 1 [adminEmptyPerms] = (400, [adminEmptyPerms]) ∧
    updateUserHandler 1 1 { isActive := some false } [adminEmptyPerms]
      = (400, [adminEmptyPerms]) :=
  self_modification_blocked 1 [adminEmptyPerms] adminEmptyPerms
    { isActive := some false } rfl rfl

/-- C7: a successful delete of a course or college keeps the record in
the store with status set to the terminal value deleted and
updatedBy/updatedAt stamped, all other fields and all other records
untouched, and the store keeps its length; deleting a user likewise only
sets isActive to false and never removes the record. -/
theorem soft_delete_keeps_records (callerId now cid gid uid : Nat)
    (courses : List Course) (colleges : List College) (users : List User)
    (c : Course) (g : College) (u : User)
    (hc : courses.find? (fun x => x.id = cid) = some c)
    (hg : colleges.find? (fun x => x.id = gid) = some g)
    (hu : users.find? (fun x => x.id = uid) = some u)
    (hself : ¬ uid = callerId) :
    (deleteCourseHandler callerId cid now courses).1 = 200 ∧
    (deleteCourseHandler callerId cid now courses).2.find?
        (fun x => x.id = cid)
      = some { c with
          status := "deleted"
          updatedBy := some callerId
          updatedAt := now } ∧
    (deleteCourseHandler callerId cid now courses).2.length
      = courses.length ∧
    (∀ x ∈ courses, ¬ x.id = cid →
      x ∈ (deleteCourseHandler callerId cid now courses).2) ∧
    (deleteCollegeHandler callerId gid now colleges).1 = 200 ∧
    (deleteCollegeHandler callerId gid now colleges).2.find?
        (fun x => x.id = gid)
      = some { g with
          status := "deleted"
          updatedBy := some callerId
          updatedAt := now } ∧
    (deleteCollegeHandler callerId gid now colleges).2.length
      = colleges.length ∧
    (∀ x ∈ colleges, ¬ x.id = gid →
      x ∈ (deleteCollegeHandler callerId gid now colleges).2) ∧
    (deleteUserHandler callerId uid users).1 = 200 ∧
    (deleteUserHandler callerId uid users).2.find? (fun x => x.id = uid)
      = some { u with isActive := false } ∧
    (deleteUserHandler callerId uid users).2.length = users.length ∧
    (∀ x ∈ users, ¬ x.id = uid →
      x ∈ (deleteUserHandler callerId uid users).2) := by
  simp only [deleteCourseHandler, deleteCollegeHandler, deleteUserHandler,
    hc, hg, hu, if_neg hself]
  refine ⟨True.intro, ?_, ?_, ?_, True.intro, ?_, ?_, ?_, True.intro, ?_, ?_, ?_⟩
  · exact find?_map_update (fun x : Course => x.id = cid)
      (fun x => { x with
        status := "deleted"
        updatedBy := some callerId
        updatedAt := now }) (fun a ha => ha) courses c hc
  · simp
  · intro x hx hne
    exact mem_map_update_of_not (fun y : Course => y.id = cid) _ courses x hx hne
  · exact find?_map_update (fun x : College => x.id = gid)
      (fun x => { x with
        status := "deleted"
        updatedBy := some callerId
        updatedAt := now }) (fun a ha => ha) colleges g hg
  · simp
  · intro x hx hne
    exact mem_map_update_of_not (fun y : College => y.id = gid) _ colleges x hx hne
  · exact find?_map_update (fun x : User => x.id = uid)
      (fun x => { x with isActive := false }) (fun a ha => ha) users u hu
  · simp
  · intro x hx hne
    exact mem_map_update_of_not (fun y : User => y.id = uid) _ users x hx hne

/-- Witness for C7 at singleton stores: course 1 and user 2 survive their
deletes, the course with status deleted and stamps, the user merely
deactivated. -/
theorem soft_delete_keeps_records_witness :
    (deleteCourseHandler 99 1 500 [course0]).2.find? (fun x => x.id = 1)
      = some { course0 with
          status := "deleted"
          updatedBy := some 99
          updatedAt := 500 } ∧
    (deleteUserHandler 99 2 [user2]).2.find? (fun x => x.id = 2)
      = some { user2 with isActive := false } := by
  obtain ⟨-, h1, -, -, -, -, -, -, -, h2, -, -⟩ :=
    soft_delete_keeps_records 99 500 1 1 2 [course0] [college0] [user2]
      course0 college0 user2 rfl rfl rfl (by decide)
  exact ⟨h1, h2⟩

/-- C10: PUT /admin/users/:id strips password and email from the update
data, so across every outcome of the handler each stored user keeps its
email and password, and on the success path the target record is exactly
the stored user with only the submitted name/role/phone/isActive fields
applied. -/
theorem update_user_preserves_email_password (callerId targetId : Nat)
    (b : UserUpdateBody) (store : List User) (u : User)
    (hmem : store.find? (fun x => x.id = targetId) = some u)
    (hguard : ¬(targetId = callerId ∧ b.isActive = some false)) :
    ((updateUserHandler callerId targetId b store).2.find?
        (fun x => x.id = targetId) = some (applyUserUpdate b u)) ∧
    (applyUserUpdate b u).email = u.email ∧
    (applyUserUpdate b u).password = u.password ∧
    ((updateUserHandler callerId targetId b store).2.map
        (fun x => (x.email, x.password))
      = store.map (fun x => (x.email, x.password))) := by
  refine ⟨?_, rfl, rfl, ?_⟩
  · simp only [updateUserHandler, hmem, if_neg hguard]
    exact find?_map_update (fun x : User => x.id = targetId)
      (applyUserUpdate b) (fun a ha => ha) store u hmem
  · simp only [updateUserHandler, hmem, if_neg hguard]
    exact map_update_proj (fun x : User => x.id = targetId)
      (applyUserUpdate b) (fun x => (x.email, x.password)) (fun a => rfl)
      store

/-- Witness for C10: an update whose body carries a new email and
password still leaves user 2 stored with the original ones, applying
only the new name. -/
theorem update_user_preserves_email_password_witness :
    ((updateUserHandler 1 2 userBody0 [adminEmptyPerms, user2]).2.find?
        (fun x => x.id = 2) = some (applyUserUpdate userBody0 user2)) ∧
    (applyUserUpdate userBody0 user2).email = "member@example.com" ∧
    (applyUserUpdate userBody0 user2).password = "hash3" ∧
    (applyUserUpdate userBody0 user2).name = "New" := by
  refine ⟨?_, rfl, rfl, rfl⟩
  exact (update_user_preserves_email_password 1 2 userBody0
    [adminEmptyPerms, user2] user2 rfl (by decide)).1
